import Mathlib

/-!
Shallow embedding of the inbound-email ingestion pipeline of django-helpdesk
(ClearlyEnergy fork), `helpdesk/email.py`: message classification
(`object_from_message`) and ticket ingestion (`create_object_from_email_message`),
together with theorems checking the natural-language specification against it.

Conventions of the embedding:
* header values are modelled after header decoding / `parseaddr`, since charset
  handling is irrelevant to the verified properties;
* the Django ORM is modelled by an explicit `DB` record threaded through the
  functions; `objects.create` appends, `save` rewrites the row with the same id;
* external collaborators that are not part of this repository's email module
  (EmailReplyParser, BeautifulSoup, e-mail address validation) are abstracted as
  an `Externals` record of functions, universally quantified in the theorems;
* Python truthiness of optional strings (`if not body:`) is modelled by
  `pyTruthyOpt`, and Python's `x or y` on strings by `pyOrStr`.
-/

namespace Helpdesk

/-- Python's whitespace set for `str.strip()`. -/
def isPySpace (c : Char) : Bool :=
  c == ' ' || c == '\t' || c == '\n' || c == '\r' || c == '\x0b' || c == '\x0c'

/-- Python `s.strip()`: drop whitespace from both ends. -/
def pyStrip (s : String) : String :=
  String.mk (((s.toList.dropWhile isPySpace).reverse.dropWhile isPySpace).reverse)

/-- Python `s.lower()` (ASCII case folding suffices for the addresses and
keywords involved). -/
def pyLower (s : String) : String :=
  String.mk (s.toList.map Char.toLower)

/-- Fuel-driven worker for `pyReplace`; the fuel bounds the number of steps by
the input length. -/
def replaceAux (pat rep : List Char) : Nat → List Char → List Char
  | 0, l => l
  | _ + 1, [] => []
  | fuel + 1, c :: rest =>
    if pat.isPrefixOf (c :: rest) then
      rep ++ replaceAux pat rep fuel ((c :: rest).drop pat.length)
    else
      c :: replaceAux pat rep fuel rest

/-- Python `s.replace(pat, rep)`: replace every non-overlapping occurrence,
left to right (the affix patterns used here are never empty). -/
def pyReplace (s pat rep : String) : String :=
  String.mk (replaceAux pat.toList rep.toList s.toList.length s.toList)

/-- Fuel-driven worker for `pySplitOn`. -/
def splitAux (sep : List Char) : Nat → List Char → List Char → List String
  | 0, acc, l => [String.mk (acc.reverse ++ l)]
  | _ + 1, acc, [] => [String.mk acc.reverse]
  | fuel + 1, acc, c :: rest =>
    if sep.isPrefixOf (c :: rest) then
      String.mk acc.reverse :: splitAux sep fuel [] ((c :: rest).drop sep.length)
    else
      splitAux sep fuel (c :: acc) rest

/-- Python `s.split(sep)` for a non-empty separator; `"".split(sep) = [""]`. -/
def pySplitOn (s sep : String) : List String :=
  splitAux sep.toList (s.toList.length + 1) [] s.toList

/-- Python slicing `s[0:n]` on code points. -/
def pyTake (s : String) (n : Nat) : String :=
  String.mk (s.toList.take n)

/-- Python `s.endswith(suffix)`. -/
def pyEndsWith (s suffix : String) : Bool :=
  suffix.toList.reverse.isPrefixOf s.toList.reverse

/-- Python `sep.join(parts)`. -/
def pyJoin (sep : String) (parts : List String) : String :=
  match parts with
  | [] => ""
  | p :: rest => rest.foldl (fun acc q => acc ++ sep ++ q) p

/-- Python truthiness for an optional string: `None` and `""` are falsy. -/
def pyTruthyOpt : Option String → Bool
  | none => false
  | some s => !(s == "")

/-- Python `a or b` where `a` is an optional string: yields `b` when `a` is
`None` or empty, otherwise `a`. -/
def pyOrStr (a : Option String) (b : String) : String :=
  match a with
  | none => b
  | some s => if s == "" then b else s

/-- Python `needle in hay` substring test. -/
def strContains (hay needle : String) : Bool :=
  let h := hay.toList
  let n := needle.toList
  (List.range (h.length + 1)).any (fun p => n.isPrefixOf (h.drop p))

/-- Ticket status constants. Modelled from the spec: the constants live in
`helpdesk/models.py`, which is not under `src/`; per spec section 3 the status is
"one of a fixed set: OPEN, REOPENED, REPLIED, RESOLVED, CLOSED, DUPLICATE". Only
their distinctness matters to `email.py`. -/
inductive Status where
  | OPEN
  | REOPENED
  | REPLIED
  | RESOLVED
  | CLOSED
  | DUPLICATE
deriving Repr, DecidableEq

/-- Is the status one of `CLOSED`, `RESOLVED`, `DUPLICATE` (the disjunction
tested on email.py lines 516 and 528)? -/
def Status.isClosedLike : Status → Bool
  | .CLOSED => true
  | .RESOLVED => true
  | .DUPLICATE => true
  | _ => false

/-- The per-update ticket status transition of email.py lines 512-530.
`externalUpdate` is the branch condition of line 512: when true the update is
treated as external/public, otherwise as a staff reply to a non-staff
submitter. -/
def statusTransition (externalUpdate : Bool) (s : Status) : Status :=
  if externalUpdate then
    if s.isClosedLike then .REOPENED
    else if s == .REPLIED then .OPEN
    else s
  else
    if !s.isClosedLike then .REPLIED
    else s

/-- The `new_status` marker written to the follow-up by email.py lines 518, 525
and 530: set exactly when a transition fires, `none` otherwise. -/
def statusMarker (externalUpdate : Bool) (s : Status) : Option Status :=
  if externalUpdate then
    if s.isClosedLike then some .REOPENED
    else if s == .REPLIED then some .OPEN
    else none
  else
    if !s.isClosedLike then some .REPLIED
    else none

/-- Python `updater is not ticket.assigned_to` (email.py line 512). `updater`
comes from `User.objects.filter(email=...).first()` and `ticket.assigned_to`
from the foreign-key accessor: each evaluation constructs a fresh model
instance, so the two references are identical only when both are `None`.
The arguments are the user ids of the two optional users. -/
def pyIsNotUser (updater assignee : Option Nat) : Bool :=
  !(updater.isNone && assignee.isNone)

/-- The fixed urgent keyword set of email.py line 801. -/
def highPriorityTypes : List String := ["high", "important", "1", "urgent"]

/-- Priority classification of email.py lines 799-802:
`2 if high_priority_types & {smtp_priority, smtp_importance} else 3`.
The Python set intersection is modelled by list intersection. -/
def computePriority (priorityHdr importanceHdr : String) : Nat :=
  if (highPriorityTypes.inter [priorityHdr, importanceHdr]).isEmpty then 3 else 2

/-- Numeric value of a list of decimal digit characters. -/
def natOfDigits (ds : List Char) : Nat :=
  ds.foldl (fun n c => n * 10 + (c.toNat - 48)) 0

/-- Does `[<slug>-<digits>]` occur at the head of `l`? Returns the captured
digits (the maximal digit run, which must be followed by `]`). -/
def tagHere (slug : List Char) (l : List Char) : Option Nat :=
  match l with
  | '[' :: rest =>
    if slug.isPrefixOf rest then
      match rest.drop slug.length with
      | '-' :: ds =>
        let digits := ds.takeWhile Char.isDigit
        if digits.isEmpty then none
        else
          match ds.drop digits.length with
          | ']' :: _ => some (natOfDigits digits)
          | _ => none
      | _ => none
    else none
  | _ => none

/-- Embeds `re.match(r".*\[" + q.slug + r"-(?P<id>\d+)\]", subject)` of email.py
line 636. The greedy `.*` (which cannot cross a newline) makes the match start
at the last position of the first line of the subject where `[<slug>-<digits>]`
occurs; `\d+` captures the maximal digit run there, which must be followed by
`]`. Returns the captured ticket id. -/
def trackingMatch (slug subject : String) : Option Nat :=
  let s := subject.toList
  ((List.range (s.length + 1)).filterMap (fun p =>
    if (s.take p).all (fun c => c != '\n') then tagHere slug.toList (s.drop p)
    else none)).getLast?

/-- A routing queue, with the fields of `seed`/`helpdesk` queues that
`email.py` reads. -/
structure Queue where
  slug : String
  match_on : List String
  match_on_addresses : List String
  email_address : String
  default_owner : Option Nat
  enable_notifications_on_email_events : Bool
deriving Repr, DecidableEq

/-- The queue bundle built by `process_email` (email.py lines 100-107). -/
structure Queues where
  importer_queues : List Queue
  default_queue : Queue
deriving Repr, DecidableEq

/-- Queues with a non-empty subject keyword list
(`importer_queues.exclude(match_on__exact=[])`, email.py line 100). -/
def Queues.matching_queues (qs : Queues) : List Queue :=
  qs.importer_queues.filter (fun q => !q.match_on.isEmpty)

/-- Queues with a non-empty sender address list
(`importer_queues.exclude(match_on_addresses__exact=[])`, email.py line 101). -/
def Queues.address_matching_queues (qs : Queues) : List Queue :=
  qs.importer_queues.filter (fun q => !q.match_on_addresses.isEmpty)

/-- A word character for the purposes of the regex `\b` boundary. -/
def isWordChar (c : Char) : Bool :=
  c.isAlphanum || c == '_'

/-- Does the whole word `w` occur in `s` starting at position `p`? -/
def hasWordAt (w s : List Char) (p : Nat) : Bool :=
  w.isPrefixOf (s.drop p) &&
  (p == 0 || !isWordChar (s.getD (p - 1) ' ')) &&
  (p + w.length >= s.length || !isWordChar (s.getD (p + w.length) ' '))

/-- Embeds `re.compile(r'\b%s\b' % m, re.I).search(subject)` of email.py lines
646-647, for plain-word keywords `m`: a case-insensitive whole-word search. -/
def wordSearch (m subject : String) : Bool :=
  let s := (pyLower subject).toList
  let w := (pyLower m).toList
  (List.range (s.length + 1)).any (hasWordAt w s)

/-- Embeds the `reduce` of email.py line 653: does any entry of
`match_on_addresses` occur, lowercased, as a substring of the lowercased sender
address? -/
def addrRuleMatch (q : Queue) (senderLower : String) : Bool :=
  q.match_on_addresses.foldl (fun prev e => prev || strContains senderLower (pyLower e)) false

/-- The queue / tracking-id classification of email.py lines 633-658.
Stage 1 scans `importer_queues` for a subject tracking tag, keeping the first
queue that matches (`if matchobj and not ticket`). Stage 2 (only when no tag
matched) picks the first keyword-matching queue; stage 3 (only when no queue is
set) lets every address-matching queue overwrite the choice, so the last match
wins there; stage 4 falls back to the default queue. One step of the
tracking-tag scan is `tagScanStep`: the first queue whose slug tag matches
fixes the pair (`if matchobj and not ticket`); later matches do not overwrite
it. -/
def tagScanStep (subject : String) (acc : Option Queue × Option Nat) (q : Queue) :
    Option Queue × Option Nat :=
  match trackingMatch q.slug subject, acc.2 with
  | some id, none => (some q, some id)
  | _, _ => acc

def classifyQueue (qs : Queues) (subject senderAddr : String) : Queue × Option Nat :=
  let tagged := qs.importer_queues.foldl (tagScanStep subject) (none, none)
  let queue1 : Option Queue :=
    match tagged.2 with
    | some _ => tagged.1
    | none => qs.matching_queues.find? (fun q => q.match_on.any (fun m => wordSearch m subject))
  let queue2 : Option Queue :=
    match queue1 with
    | some q => some q
    | none =>
      qs.address_matching_queues.foldl
        (fun acc q => if addrRuleMatch q (pyLower senderAddr) then some q else acc) none
  (queue2.getD qs.default_queue, tagged.2)

/-- A user account, reduced to what `create_object_from_email_message` reads.
The organization is left implicit (a single organization is modelled), so the
staff flag already means "staff in the ticket's organization". -/
structure UserRec where
  id : Nat
  email : String
  name : String
  is_staff : Bool
deriving Repr, DecidableEq

/-- A persisted ticket, with the columns `email.py` reads or writes. -/
structure TicketT where
  id : Nat
  title : String
  queue : Queue
  contact_name : Option String
  contact_email : Option String
  submitter_email : String
  description : String
  priority : Nat
  status : Status
  assigned_to : Option Nat
  merged_to : Option Nat
deriving Repr, DecidableEq

/-- A persisted follow-up. `ticket` is optional because
`create_object_from_email_message` passes its (possibly `None`) local `ticket`
straight into `FollowUp.objects.create` (email.py line 499). -/
structure FollowUpRec where
  id : Nat
  ticket : Option Nat
  title : String
  date : Nat
  public : Bool
  comment : String
  message_id : String
  new_status : Option Status
deriving Repr, DecidableEq

/-- A CC subscription record of a ticket. -/
structure TicketCCRec where
  ticket_id : Nat
  email : String
deriving Repr, DecidableEq

/-- An attachment stored for a follow-up. -/
structure AttachmentRec where
  followup : Nat
  filename : String
  content_type : Option String
deriving Repr, DecidableEq

/-- An `IgnoreEmail` rule. `importers` is the m2m scope (empty list models
`importers__isnull=True`, a globally scoped rule); `test` is the address
predicate `IgnoreEmail.test` of `helpdesk/models.py` (not under `src/`),
abstracted as a boolean function on the address. -/
structure IgnoreRule where
  importers : List Nat
  keep_in_mailbox : Bool
  test : String → Bool

/-- The persistent store read and written by the ingestion engine. `formFields`
models the `CustomField` names of the e-mail form type (email.py line 480);
`nextTicketId` / `nextFuId` are the autoincrement counters and `now` the clock
reading used for `timezone.now()`. -/
structure DB where
  users : List UserRec
  tickets : List TicketT
  followups : List FollowUpRec
  ticketccs : List TicketCCRec
  attachments : List AttachmentRec
  ignores : List IgnoreRule
  formFields : List String
  nextTicketId : Nat
  nextFuId : Nat
  now : Nat

/-- External collaborators used by the pipeline that are not part of
`helpdesk/email.py`: the e-mail reply parser, the HTML-to-text extraction of
BeautifulSoup, the ascii/unicode-escape round-trip workaround of email.py lines
711-717, the e-mail address validation performed inside
`subscribe_to_ticket_updates`, and the timestamped name given to the archived
`.eml` copy (email.py lines 790-793). -/
structure Externals where
  parseReply : String → String
  readFragments : String → List String
  htmlGetText : String → String
  findBodyText : String → Option String
  escapeFix : String → String
  validEmail : String → Bool
  emlName : String

/-- The global configuration flags read by the pipeline:
`QUEUE_EMAIL_BOX_UPDATE_ONLY`, `HELPDESK_FULL_FIRST_MESSAGE_FROM_EMAIL` and
`HELPDESK_ALWAYS_SAVE_INCOMING_EMAIL_MESSAGE`. -/
structure Config where
  updateOnly : Bool
  fullFirstMessage : Bool
  alwaysSaveIncoming : Bool
deriving Repr, DecidableEq

/-- A leaf MIME part, as yielded by `message.walk()` with multipart containers
included (they carry maintype "multipart" and are skipped by the walk). The
payload is modelled as its already charset-decoded text. -/
structure MimePart where
  maintype : String
  subtype : String
  name : Option String
  payload : String
deriving Repr, DecidableEq

/-- Python's `part.get_content_type()`. -/
def MimePart.contentType (p : MimePart) : String :=
  p.maintype ++ "/" ++ p.subtype

/-- An inbound message after header decoding. `fromAddr`, `messageId` and
`inReplyTo` are the address components already extracted by `parseaddr` (empty
string when the header is missing or unparsable); `subject` is `none` when the
header is absent; `rawStr` is `str(message)`. -/
structure EmailMsg where
  subject : Option String
  fromName : String
  fromAddr : String
  toList : List (String × String)
  ccList : List (String × String)
  messageId : String
  inReplyTo : String
  xBeamDelivered : Option String
  priorityHdr : String
  importanceHdr : String
  parts : List MimePart
  rawStr : String
deriving Repr, DecidableEq

/-- A staged upload (`SimpleUploadedFile`): name, content, content type. -/
structure FileRec where
  name : String
  content : String
  content_type : Option String
deriving Repr, DecidableEq

/-- The payload dictionary built at email.py lines 804-814. -/
structure Payload where
  body : String
  full_body : String
  subject : String
  queue : Queue
  senderName : String
  senderEmail : String
  priority : Nat
  toList : List (String × String)
  ccList : List (String × String)
deriving Repr, DecidableEq

/-- Result of processing one message. `consumed` / `retained` are the `True` /
`False` early returns of `object_from_message` (delete vs keep in mailbox);
`ingested` is a truthy ticket returned by `create_object_from_email_message`
(consumed by the orchestrator); `errored` is an uncaught Python exception, with
the store as mutated up to that point. -/
inductive OMResult where
  | consumed (db : DB)
  | retained (db : DB)
  | ingested (db : DB) (ticketId : Nat)
  | errored (db : DB) (error : String)

/-- The store carried by a result. -/
def OMResult.db : OMResult → DB
  | .consumed d => d
  | .retained d => d
  | .ingested d _ => d
  | .errored d _ => d

/-- Was the message consumed (deleted / marked handled)? -/
def OMResult.isConsumed : OMResult → Bool
  | .consumed _ => true
  | .ingested _ _ => true
  | _ => false

/-- Was the message retained in the mailbox? -/
def OMResult.isRetained : OMResult → Bool
  | .retained _ => true
  | _ => false

/-- Did processing abort with an exception? -/
def OMResult.isErrored : OMResult → Bool
  | .errored _ _ => true
  | _ => false

/-- The ticket id returned by ingestion, when any. -/
def OMResult.ticketId? : OMResult → Option Nat
  | .ingested _ t => some t
  | _ => none

/-- A fragment of Python's `mimetypes` extension/type table, covering the
content types exercised in this development. -/
def mimeTable : List (String × String) :=
  [(".pdf", "application/pdf"), (".txt", "text/plain"), (".html", "text/html"),
   (".png", "image/png"), (".jpg", "image/jpeg"), (".eml", "message/rfc822"),
   (".bin", "application/octet-stream"), (".csv", "text/csv")]

/-- Models `mimetypes.guess_extension` (email.py line 748). -/
def guessExtension (ctype : String) : Option String :=
  (mimeTable.find? (fun e => e.2 == ctype)).map (fun e => e.1)

/-- Models `mimetypes.guess_type(name)[0]` (email.py line 769):
the type guessed from the filename's extension. -/
def guessType (filename : String) : Option String :=
  (mimeTable.find? (fun e => pyEndsWith filename e.1)).map (fun e => e.2)

/-- The filename synthesized for a part in the attachment branch of email.py
lines 746-751: an unnamed part gets `part-<counter><ext>` where `ext` is guessed
from the declared content type (Python renders a failed guess, `None`, as the
literal string "None" in the `%s` interpolation); a named part gets
`part-<counter>_<name>`. -/
def attachmentName (counter : Nat) (part : MimePart) : String :=
  match part.name with
  | none =>
    "part-" ++ toString counter ++
      (match guessExtension part.contentType with
       | some e => e
       | none => "None")
  | some n => "part-" ++ toString counter ++ "_" ++ n

/-- The staged attachment built in the attachment branch of email.py lines
746-769: synthesized filename, decoded payload, content type guessed from the
synthesized filename. -/
def attachmentFile (counter : Nat) (part : MimePart) : FileRec :=
  ⟨attachmentName counter part, part.payload, guessType (attachmentName counter part)⟩

/-- Accumulator of the MIME walk of email.py lines 678-772. -/
structure WalkOut where
  body : Option String
  fullBody : Option String
  files : List FileRec
  counter : Nat
deriving Repr, DecidableEq

/-- One iteration of the MIME walk (email.py lines 683-772) over a single part.
`tagIsNone` is the test `ticket is None` of line 700 (no tracking tag matched)
and `fullFirst` the `HELPDESK_FULL_FIRST_MESSAGE_FROM_EMAIL` flag. -/
def walkStep (ext : Externals) (fullFirst tagIsNone : Bool) (acc : WalkOut)
    (part : MimePart) : WalkOut :=
  if part.maintype == "multipart" then acc
  else if part.maintype == "text" && part.name == none then
    if part.subtype == "plain" then
      let body0 := part.payload
      let pair :=
        if tagIsNone && fullFirst then
          (ext.escapeFix (ext.parseReply body0),
           pyJoin "\n\n" (ext.readFragments body0))
        else
          (ext.escapeFix (ext.parseReply body0), ext.parseReply body0)
      { acc with body := some pair.1, fullBody := some pair.2, counter := acc.counter + 1 }
    else
      let emailBody := part.payload
      let acc1 :=
        if !pyTruthyOpt acc.body && !pyTruthyOpt acc.fullBody then
          let altered := pyReplace (pyReplace emailBody "</p>" "</p>\n") "<br" "\n<br"
          { acc with fullBody := some (ext.htmlGetText altered) }
        else acc
      let wrapped :=
        if strContains emailBody "<body" then emailBody
        else "<body>" ++ emailBody ++ "</body>"
      let payloadHtml :=
        "<html><head><meta charset=\"utf-8\" /></head>" ++ wrapped ++ "</html>"
      { acc1 with
          files := acc1.files ++ [⟨"email_html_body.html", payloadHtml, some "text/html"⟩],
          counter := acc1.counter + 1 }
  else
    { acc with
        files := acc.files ++ [attachmentFile acc.counter part],
        counter := acc.counter + 1 }

/-- The full MIME walk over all parts of the message. -/
def walkParts (ext : Externals) (fullFirst tagIsNone : Bool)
    (parts : List MimePart) : WalkOut :=
  parts.foldl (walkStep ext fullFirst tagIsNone) ⟨none, none, [], 0⟩

/-- The post-walk body fallback of email.py lines 774-784: when no truthy plain
body was found, extract the text of the `<body>` node of the full message, and
default to the empty string. Returns the final `(body, full_body)` pair. -/
def bodyFallback (ext : Externals) (rawStr : String) (body fullBody : Option String) :
    Option String × Option String :=
  if !pyTruthyOpt body then
    let pair :=
      match ext.findBodyText rawStr with
      | some t => (some t, some t)
      | none => (body, fullBody)
    (if !pyTruthyOpt pair.1 then some "" else pair.1, pair.2)
  else (body, fullBody)

/-- Embeds `FollowUp.objects.filter(message_id=in_reply_to).order_by('-date')`
followed by `.first()` (email.py lines 452-454): the follow-up with that
message id having the greatest date (the first listed, on ties). -/
def latestFollowUp (fus : List FollowUpRec) (mid : String) : Option FollowUpRec :=
  (fus.filter (fun f => f.message_id == mid)).foldl
    (fun acc f =>
      match acc with
      | none => some f
      | some a => if f.date > a.date then some f else acc)
    none

/-- Row lookup `Ticket.objects.get(id=tid)`, as an option. -/
def findTicket (db : DB) (tid : Nat) : Option TicketT :=
  db.tickets.find? (fun t => t.id == tid)

/-- The merge redirect of email.py lines 471-474: when `merged_to` is set, use
the merge target for all further operations. Foreign-key integrity makes the
lookup total on well-formed stores; the `getD` fallback is never taken there. -/
def redirectMerged (db : DB) (t : TicketT) : TicketT :=
  match t.merged_to with
  | some m => (findTicket db m).getD t
  | none => t

/-- Ticket resolution of email.py lines 447-474: an `In-Reply-To` follow-up
match takes precedence and is used directly; only when no previous follow-up
was found is the tracking-tag ticket id looked up, and only on that path is the
merge redirect applied. -/
def resolveTicket (db : DB) (inReplyTo : String) (ticketId : Option Nat) :
    Option TicketT :=
  let previous := if inReplyTo == "" then none else latestFollowUp db.followups inReplyTo
  match previous with
  | some fu => fu.ticket.bind (fun tid => findTicket db tid)
  | none =>
    match ticketId with
    | some tid =>
      match findTicket db tid with
      | some t => some (redirectMerged db t)
      | none => none
    | none => none

/-- Modelled from the spec: `is_helpdesk_staff` lives in
`helpdesk/decorators.py`, which is not under `src/`. Per spec section 4.5 it
says whether the account holds staff privilege in the ticket's organization
(a single organization is modelled); a missing account is not staff. -/
def isHelpdeskStaff : Option UserRec → Bool
  | some u => u.is_staff
  | none => false

/-- Ticket creation of email.py lines 479-494. The created ticket's status is
not set by that call; the column default OPEN is modelled from the spec
(section 4.5: "create a new ticket (status OPEN)"), since the default lives in
`helpdesk/models.py`, not under `src/`. `formFields` plays the role of the
`CustomField` names of the e-mail form type (line 480). -/
def mkTicket (db : DB) (payload : Payload) : TicketT :=
  { id := db.nextTicketId,
    title := pyTake payload.subject 200,
    queue := payload.queue,
    contact_name :=
      if db.formFields.contains "contact_name" then some (pyTake payload.senderName 200) else none,
    contact_email :=
      if db.formFields.contains "contact_email" then some (pyTake payload.senderEmail 200) else none,
    submitter_email := payload.senderEmail,
    description := payload.body,
    priority := payload.priority,
    status := .OPEN,
    assigned_to := payload.queue.default_owner,
    merged_to := none }

/-- The follow-up created at email.py lines 498-505: public, comment
`payload.get('full_body', payload['body']) or ""` (the payload dictionary
always carries `full_body`), message id recorded for threading. -/
def mkFollowUp (db : DB) (ticket : Option Nat) (senderEmail fullBody messageId : String) :
    FollowUpRec :=
  { id := db.nextFuId,
    ticket := ticket,
    title := pyTake ("E-Mail Received from " ++ senderEmail) 200,
    date := db.now,
    public := true,
    comment := pyOrStr (some fullBody) "",
    message_id := messageId,
    new_status := none }

/-- The branch condition of email.py line 512,
`(submitter_is_staff and updater is not ticket.assigned_to) or not
updater_is_staff`, with the Python identity test modelled by `pyIsNotUser`:
when true, the update is treated as external/public. -/
def externalUpdateCond (db : DB) (t : TicketT) (senderEmail : String) : Bool :=
  let updater := db.users.find? (fun u => u.email == senderEmail)
  let submitter := db.users.find? (fun u => u.email == t.submitter_email)
  (isHelpdeskStaff submitter && pyIsNotUser (updater.map (fun u => u.id)) t.assigned_to) ||
    !isHelpdeskStaff updater

/-- The ticket row as saved at email.py line 531: only the status changes, to
`statusTransition` of the line-512 branch condition. -/
def savedTicket (db : DB) (t : TicketT) (senderEmail : String) : TicketT :=
  { t with status := statusTransition (externalUpdateCond db t senderEmail) t.status }

/-- The follow-up row as saved at email.py line 532: `new_status` stamped by
`statusMarker`, and the title rewritten when the update re-opens the ticket
(lines 517-522; `updater.get_full_name() or get_username()` is the user's
`name`). -/
def savedFollowup (db : DB) (t : TicketT) (fu : FollowUpRec) (senderEmail : String) :
    FollowUpRec :=
  let updater := db.users.find? (fun u => u.email == senderEmail)
  let updaterIsStaff := isHelpdeskStaff updater
  let externalUpdate := externalUpdateCond db t senderEmail
  let fuTitle :=
    if externalUpdate && t.status.isClosedLike then
      if updaterIsStaff then
        "Ticket Re-Opened by E-Mail Received from " ++
          (match updater with
           | some u => u.name
           | none => senderEmail)
      else
        "Ticket Re-Opened by E-Mail Received from " ++ senderEmail
    else fu.title
  { fu with new_status := statusMarker externalUpdate t.status, title := fuTitle }

/-- The status-update block of email.py lines 506-532, run only when the
message updates an existing ticket: computes the staff flags and the line-512
branch condition (with the Python identity test modelled by `pyIsNotUser`),
applies `statusTransition` to the ticket, stamps the follow-up's `new_status`
and reopened title, and saves both rows. -/
def updateTicketAndFollowup (db : DB) (t : TicketT) (fu : FollowUpRec)
    (senderEmail : String) : DB :=
  { db with
      tickets := db.tickets.map
        (fun x => if x.id == t.id then savedTicket db t senderEmail else x),
      followups := db.followups.map
        (fun g => if g.id == fu.id then savedFollowup db t fu senderEmail else g) }

/-- Modelled from the spec: `process_attachments` (helpdesk/lib.py, not under
`src/`) stores each staged file as an attachment linked to the follow-up and
returns the stored (filename, content-type) pairs (spec section 6). -/
def processAttachments (db : DB) (fuId : Nat) (files : List FileRec) : DB :=
  { db with attachments := db.attachments ++ files.map (fun f => ⟨fuId, f.name, f.content_type⟩) }

/-- Modelled from the spec: `subscribe_to_ticket_updates`
(helpdesk/views/staff.py, not under `src/`) creates a `TicketCC` for the
ticket, deduplicating against existing subscriptions; an invalid address raises
`ValidationError`, which `create_ticket_cc` swallows (spec sections 3 and 4.5),
modelled by the `validEmail` predicate. -/
def subscribe_to_ticket_updates (ext : Externals) (db : DB) (tid : Nat)
    (email' : String) : DB :=
  if !ext.validEmail email' then db
  else if db.ticketccs.any (fun cc => cc.ticket_id == tid && cc.email == email') then db
  else { db with ticketccs := db.ticketccs ++ [⟨tid, email'⟩] }

/-- One step of the `create_ticket_cc` loop of email.py lines 417-432: the
To/Cc address is stripped, the queue's own address skipped, and the rest
subscribed to the ticket. -/
def ccStep (ext : Externals) (t : TicketT) (d : DB) (p : String × String) : DB :=
  let e := pyStrip p.2
  if e == t.queue.email_address then d
  else subscribe_to_ticket_updates ext d t.id e

def create_ticket_cc (ext : Externals) (db : DB) (t : TicketT)
    (ccList : List (String × String)) : DB :=
  if ccList.isEmpty then db
  else ccList.foldl (ccStep ext t) db

/-- The ticket ingestion engine `create_object_from_email_message` of email.py
lines 437-597. When no ticket resolves and update-only mode is off, a new
ticket is created; when update-only mode is on, the code still creates a
follow-up with `ticket=None` (line 499) and then dereferences the `None` ticket
at line 509 (`ticket.submitter_email`), raising an uncaught exception. On the
existing-ticket path the status-update block runs, then attachments are stored
and To/Cc addresses subscribed. Outbound notification dispatch (lines 549-595)
is an external collaborator and not modelled beyond the returned ticket. -/
def create_object_from_email_message (ext : Externals) (cfg : Config) (db : DB)
    (messageId inReplyTo : String) (ticketId : Option Nat)
    (payload : Payload) (files : List FileRec) : OMResult :=
  match resolveTicket db inReplyTo ticketId with
  | some t =>
    let fu := mkFollowUp db (some t.id) payload.senderEmail payload.full_body messageId
    let db2 := { db with followups := db.followups ++ [fu], nextFuId := db.nextFuId + 1 }
    let db3 := updateTicketAndFollowup db2 t fu payload.senderEmail
    let db4 := processAttachments db3 fu.id files
    let db5 := create_ticket_cc ext db4 t (payload.toList ++ payload.ccList)
    .ingested db5 t.id
  | none =>
    if cfg.updateOnly then
      let fu := mkFollowUp db none payload.senderEmail payload.full_body messageId
      let db2 := { db with followups := db.followups ++ [fu], nextFuId := db.nextFuId + 1 }
      .errored db2 "AttributeError: NoneType has no attribute submitter_email"
    else
      let t := mkTicket db payload
      let db1 := { db with tickets := db.tickets ++ [t], nextTicketId := db.nextTicketId + 1 }
      let fu := mkFollowUp db1 (some t.id) payload.senderEmail payload.full_body messageId
      let db2 := { db1 with followups := db1.followups ++ [fu], nextFuId := db1.nextFuId + 1 }
      let db4 := processAttachments db2 fu.id files
      let db5 := create_ticket_cc ext db4 t (payload.toList ++ payload.ccList)
      .ingested db5 t.id

/-- The reply/forward affixes stripped from subjects (email.py lines 47-53). -/
def STRIPPED_SUBJECT_STRINGS : List String :=
  ["Re: ", "Fw: ", "RE: ", "FW: ", "Automatic reply: "]

/-- Subject normalization of email.py lines 609-613: strip every affix
occurrence, then trim. -/
def stripSubject (subject : String) : String :=
  pyStrip (STRIPPED_SUBJECT_STRINGS.foldl (fun s affix => pyReplace s affix "") subject)

/-- The ignore-list scan of email.py lines 624-631: rules scoped to this
importer or globally scoped, tested in order against the sender and every To/Cc
address; the first rule matching any address decides. -/
def findIgnoreMatch (importerId : Nat) (rules : List IgnoreRule)
    (addrs : List (String × String)) : Option IgnoreRule :=
  (rules.filter (fun r => r.importers.contains importerId || r.importers.isEmpty)).find?
    (fun r => addrs.any (fun p => r.test p.2))

/-- The self-healing part of the forwarding-loop guard (email.py lines
665-675): when the tracking tag named an existing ticket, delete that ticket's
CC records whose address matches (case-insensitively) the forwarded address
set — the To addresses when the loop was detected by sender address alone,
otherwise the comma-split loop-marker header value. -/
def loopGuardHeal (db : DB) (tagTicket : Option Nat) (senderAddr : String)
    (queue : Queue) (autoForward : Option String)
    (toList : List (String × String)) : DB :=
  match tagTicket with
  | some tid =>
    if db.tickets.any (fun t => t.id == tid) then
      let addrs : List String :=
        if pyLower senderAddr == pyLower queue.email_address && autoForward.isNone then
          toList.map (fun p => p.2)
        else pySplitOn (pyStrip (autoForward.getD "")) ","
      { db with
          ticketccs := db.ticketccs.filter
            (fun cc => !(cc.ticket_id == tid && addrs.any (fun a => pyLower a == pyLower cc.email))) }
    else db
  | none => db

/-- The body/attachment extraction and payload construction of email.py lines
678-814, given the resolved queue and tracking-tag ticket: MIME walk, body
fallback, optional archived `.eml` copy, priority classification, payload
dictionary. Returns the payload and the staged files. -/
def messagePayload (ext : Externals) (cfg : Config) (msg : EmailMsg)
    (subject : String) (queue : Queue) (tagTicket : Option Nat) :
    Payload × List FileRec :=
  let w := walkParts ext cfg.fullFirstMessage tagTicket.isNone msg.parts
  let pair := bodyFallback ext msg.rawStr w.body w.fullBody
  let files := w.files ++
    (if cfg.alwaysSaveIncoming then [⟨ext.emlName, msg.rawStr, some "text/plain"⟩] else [])
  let body := pair.1.getD ""
  ({ body := body,
     full_body := pyOrStr pair.2 body,
     subject := subject,
     queue := queue,
     senderName := msg.fromName,
     senderEmail := msg.fromAddr,
     priority := computePriority msg.priorityHdr msg.importanceHdr,
     toList := msg.toList,
     ccList := msg.ccList }, files)

/-- The per-message pipeline `object_from_message` of email.py lines 600-815:
subject normalization, unparsable-sender consume, ignore list, queue/tag
classification, forwarding-loop guard with CC healing, MIME walk and payload
construction, then ticket ingestion. -/
def object_from_message (ext : Externals) (cfg : Config) (importerId : Nat)
    (qs : Queues) (msg : EmailMsg) (db : DB) : OMResult :=
  let subject := stripSubject (msg.subject.getD "Comment from e-mail")
  if msg.fromAddr == "" then .consumed db
  else
    match findIgnoreMatch importerId db.ignores
        ((msg.fromName, msg.fromAddr) :: (msg.toList ++ msg.ccList)) with
    | some r => if r.keep_in_mailbox then .retained db else .consumed db
    | none =>
      let qt := classifyQueue qs subject msg.fromAddr
      if msg.xBeamDelivered.isSome || pyLower msg.fromAddr == pyLower qt.1.email_address then
        .consumed (loopGuardHeal db qt.2 msg.fromAddr qt.1 msg.xBeamDelivered msg.toList)
      else
        let pf := messagePayload ext cfg msg subject qt.1 qt.2
        create_object_from_email_message ext cfg db msg.messageId msg.inReplyTo qt.2 pf.1 pf.2

/-- Definition following claim C4's wording (not the source), for comparison
with the code: "if (the ticket submitter is staff AND the updater differs from
the current assignee) OR the updater is not staff" take the external/public
transitions, otherwise the staff-reply transition. `updaterEqAssignee` says
whether the updater is the same user as the current assignee. -/
def claimC4Transition (submitterIsStaff updaterIsStaff updaterEqAssignee : Bool)
    (s : Status) : Status :=
  statusTransition ((submitterIsStaff && !updaterEqAssignee) || !updaterIsStaff) s

/-! Concrete fixtures used by the counterexamples and witnesses below. -/

/-- Identity-like instantiation of the external collaborators. -/
def fxExt : Externals :=
  { parseReply := fun s => s, readFragments := fun s => [s], htmlGetText := fun s => s,
    findBodyText := fun _ => none, escapeFix := fun s => s, validEmail := fun _ => true,
    emlName := "original_message.eml" }

/-- A queue with slug "support" and address "help@x.com", no match rules. -/
def fxQueue : Queue :=
  { slug := "support", match_on := [], match_on_addresses := [],
    email_address := "help@x.com", default_owner := none,
    enable_notifications_on_email_events := false }

/-- An importer with the single queue `fxQueue`, which is also the default. -/
def fxQueues : Queues := { importer_queues := [fxQueue], default_queue := fxQueue }

/-- An empty store. -/
def fxDB0 : DB :=
  { users := [], tickets := [], followups := [], ticketccs := [], attachments := [],
    ignores := [], formFields := [], nextTicketId := 1, nextFuId := 1, now := 100 }

/-- A plain inbound message with no tracking tag, parts or special headers. -/
def fxMsg : EmailMsg :=
  { subject := some "Hello there", fromName := "User", fromAddr := "user@y.com",
    toList := [], ccList := [], messageId := "mid-1", inReplyTo := "",
    xBeamDelivered := none, priorityHdr := "", importanceHdr := "",
    parts := [], rawStr := "raw" }

/-- Default configuration: all three flags off. -/
def fxCfg : Config :=
  { updateOnly := false, fullFirstMessage := false, alwaysSaveIncoming := false }

/-- Configuration with `QUEUE_EMAIL_BOX_UPDATE_ONLY` on. -/
def fxCfgUpdateOnly : Config :=
  { fxCfg with updateOnly := true }

/-- A generic ingestion payload from "user@y.com". -/
def fxPayload : Payload :=
  { body := "still broken", full_body := "still broken", subject := "Hello",
    queue := fxQueue, senderName := "User", senderEmail := "user@y.com", priority := 3,
    toList := [], ccList := [] }

/-- A closed ticket that has been merged into ticket 2. -/
def fxTicket1 : TicketT :=
  { id := 1, title := "Merged ticket", queue := fxQueue, contact_name := none,
    contact_email := none, submitter_email := "s@x.com", description := "", priority := 3,
    status := .CLOSED, assigned_to := none, merged_to := some 2 }

/-- The merge target of `fxTicket1`. -/
def fxTicket2 : TicketT :=
  { id := 2, title := "Merge target", queue := fxQueue, contact_name := none,
    contact_email := none, submitter_email := "s@x.com", description := "", priority := 3,
    status := .OPEN, assigned_to := none, merged_to := none }

/-- An old follow-up of the merged ticket 1, with message id "m0". -/
def fxFu1 : FollowUpRec :=
  { id := 10, ticket := some 1, title := "old", date := 5, public := true,
    comment := "c", message_id := "m0", new_status := none }

/-- A store holding the merged ticket 1, its merge target 2, and `fxFu1`. -/
def fxMergedDB : DB :=
  { fxDB0 with
      tickets := [fxTicket1, fxTicket2], followups := [fxFu1],
      nextTicketId := 3, nextFuId := 11 }

/-- A reply whose `In-Reply-To` names `fxFu1`'s message id. -/
def fxReplyMsg : EmailMsg := { fxMsg with inReplyTo := "m0" }

/-- A staff submitter account. -/
def fxU5 : UserRec := { id := 5, email := "s@x.com", name := "Sub Mitter", is_staff := true }

/-- A staff account that is also the assignee of `fxTicket3`. -/
def fxU7 : UserRec := { id := 7, email := "u7@x.com", name := "Up Dater", is_staff := true }

/-- A REPLIED ticket submitted by staff user 5 and assigned to staff user 7. -/
def fxTicket3 : TicketT :=
  { id := 3, title := "Internal ticket", queue := fxQueue, contact_name := none,
    contact_email := none, submitter_email := "s@x.com", description := "", priority := 3,
    status := .REPLIED, assigned_to := some 7, merged_to := none }

/-- An old follow-up of ticket 3, with message id "m4". -/
def fxFu4 : FollowUpRec :=
  { id := 20, ticket := some 3, title := "old", date := 5, public := true,
    comment := "c", message_id := "m4", new_status := none }

/-- A store holding the two staff users, ticket 3 and `fxFu4`. -/
def fxStaffDB : DB :=
  { fxDB0 with
      users := [fxU5, fxU7], tickets := [fxTicket3], followups := [fxFu4],
      nextTicketId := 4, nextFuId := 21 }

/-- A reply to ticket 3 sent by user 7 — the ticket's current assignee. -/
def fxStaffMsg : EmailMsg := { fxMsg with fromAddr := "u7@x.com", inReplyTo := "m4" }

/-- A PDF MIME part with the declared filename "invoice.pdf". -/
def fxPdfPart : MimePart :=
  { maintype := "application", subtype := "pdf", name := some "invoice.pdf", payload := "PDF" }

/-- A message carrying only the named PDF part. -/
def fxMsgPdf : EmailMsg := { fxMsg with parts := [fxPdfPart] }

/-- A message whose priority header is "highest" — a proper superstring of the
urgent keyword "high". -/
def fxMsgHighest : EmailMsg := { fxMsg with priorityHdr := "highest" }

/-- A globally scoped keep-in-mailbox ignore rule matching the queue's own
address. -/
def fxLoopKeepRule : IgnoreRule :=
  { importers := [], keep_in_mailbox := true, test := fun a => a == "help@x.com" }

/-- A store holding only `fxLoopKeepRule`. -/
def fxLoopDB : DB := { fxDB0 with ignores := [fxLoopKeepRule] }

/-- A message sent from the queue's own address. -/
def fxLoopMsg : EmailMsg := { fxMsg with fromAddr := "help@x.com" }

/-- A message with the loop-marker header set. -/
def fxBeamMsg : EmailMsg := { fxMsg with xBeamDelivered := some "a@b.com" }

/-- A globally scoped keep-in-mailbox ignore rule matching "u@x.com". -/
def fxKeepRule : IgnoreRule :=
  { importers := [], keep_in_mailbox := true, test := fun a => a == "u@x.com" }

/-- A store holding only `fxKeepRule`. -/
def fxIgnoreKeepDB : DB := { fxDB0 with ignores := [fxKeepRule] }

/-- A message whose From header could not be parsed (empty sender address) but
whose To list contains "u@x.com". -/
def fxNoSenderMsg : EmailMsg :=
  { fxMsg with fromAddr := "", fromName := "", toList := [("U", "u@x.com")] }

/-- A globally scoped delete-on-match ignore rule for "spam@evil.com". -/
def fxSpamRule : IgnoreRule :=
  { importers := [], keep_in_mailbox := false, test := fun a => a == "spam@evil.com" }

/-- A store holding only `fxSpamRule`. -/
def fxSpamDB : DB := { fxDB0 with ignores := [fxSpamRule] }

/-- A message sent from "spam@evil.com". -/
def fxSpamMsg : EmailMsg := { fxMsg with fromAddr := "spam@evil.com" }

/-- The follow-up created when `fxMsg` is ingested into the empty store. -/
def fxC10Fu : FollowUpRec :=
  { id := 1, ticket := some 1, title := "E-Mail Received from user@y.com", date := 100,
    public := true, comment := "", message_id := "mid-1", new_status := none }

/-! Helper lemmas about the embedded operations. -/

/-- Priority is high exactly when one of the two raw header values equals an
urgent keyword. -/
theorem computePriority_high_iff (p i : String) :
    computePriority p i = 2 ↔ p ∈ highPriorityTypes ∨ i ∈ highPriorityTypes := by
  have hbridge : highPriorityTypes.inter [p, i] = highPriorityTypes ∩ [p, i] := rfl
  unfold computePriority
  rw [hbridge]
  by_cases h : p ∈ highPriorityTypes ∨ i ∈ highPriorityTypes
  · have hne : highPriorityTypes ∩ [p, i] ≠ [] := by
      intro hnil
      rcases h with h | h
      · have hmem : p ∈ highPriorityTypes ∩ [p, i] := List.mem_inter_iff.mpr ⟨h, by simp⟩
        rw [hnil] at hmem
        simp at hmem
      · have hmem : i ∈ highPriorityTypes ∩ [p, i] := List.mem_inter_iff.mpr ⟨h, by simp⟩
        rw [hnil] at hmem
        simp at hmem
    have hfalse : (highPriorityTypes ∩ [p, i]).isEmpty = false := by
      cases hcase : highPriorityTypes ∩ [p, i] with
      | nil => exact absurd hcase hne
      | cons a l => rfl
    simp [hfalse, h]
  · have hnil : highPriorityTypes ∩ [p, i] = [] := by
      rw [List.eq_nil_iff_forall_not_mem]
      intro k hk
      rw [List.mem_inter_iff] at hk
      have hk2 := hk.2
      simp at hk2
      push_neg at h
      rcases hk2 with rfl | rfl
      · exact h.1 hk.1
      · exact h.2 hk.1
    simp [hnil, h]

/-- A non-multipart part advances the walk counter by one. -/
theorem walkStep_counter (ext : Externals) (ff tn : Bool) (acc : WalkOut) (part : MimePart)
    (h : (part.maintype == "multipart") = false) :
    (walkStep ext ff tn acc part).counter = acc.counter + 1 := by
  unfold walkStep
  rw [h]
  simp only [Bool.false_eq_true, if_false]
  split
  · split
    · rfl
    · split <;> rfl
  · rfl

/-- The walk only appends to the staged file list. -/
theorem walkStep_files_mono (ext : Externals) (ff tn : Bool) (acc : WalkOut) (part : MimePart)
    (f : FileRec) (hf : f ∈ acc.files) :
    f ∈ (walkStep ext ff tn acc part).files := by
  unfold walkStep
  split
  · exact hf
  · split
    · split
      · exact hf
      · split <;> simp <;> exact Or.inl hf
    · simp
      exact Or.inl hf

/-- Files staged by an earlier part survive the rest of the walk. -/
theorem foldl_walk_files_mono (ext : Externals) (ff tn : Bool) (parts : List MimePart) :
    ∀ (acc : WalkOut) (f : FileRec), f ∈ acc.files →
      f ∈ (parts.foldl (walkStep ext ff tn) acc).files := by
  induction parts with
  | nil => intro acc f hf; simpa using hf
  | cons p rest ih =>
    intro acc f hf
    simp only [List.foldl_cons]
    exact ih _ f (walkStep_files_mono ext ff tn acc p f hf)

/-- A part that takes the attachment branch stages `attachmentFile`. -/
theorem walkStep_attaches (ext : Externals) (ff tn : Bool) (acc : WalkOut) (part : MimePart)
    (h : (part.maintype == "multipart") = false)
    (hb : part.name ≠ none ∨ part.maintype ≠ "text") :
    attachmentFile acc.counter part ∈ (walkStep ext ff tn acc part).files := by
  have h2 : (part.maintype == "text" && part.name == none) = false := by
    rcases hb with hb | hb
    · have hn : (part.name == none) = false := by simpa using hb
      simp [hn]
    · have hn : (part.maintype == "text") = false := by simpa using hb
      simp [hn]
  unfold walkStep
  rw [h, h2]
  simp

/-- The i-th part of a container-free walk is staged with counter value i. -/
theorem foldl_walk_attaches (ext : Externals) (ff tn : Bool) (parts : List MimePart) :
    ∀ (acc : WalkOut) (i : Nat) (part : MimePart),
      parts[i]? = some part →
      (∀ p ∈ parts, p.maintype ≠ "multipart") →
      (part.name ≠ none ∨ part.maintype ≠ "text") →
      attachmentFile (acc.counter + i) part ∈ (parts.foldl (walkStep ext ff tn) acc).files := by
  induction parts with
  | nil => intro acc i part hi _ _; simp at hi
  | cons p rest ih =>
    intro acc i part hi hm hb
    simp only [List.foldl_cons]
    cases i with
    | zero =>
      rw [List.getElem?_cons_zero] at hi
      injection hi with hi
      subst hi
      rw [Nat.add_zero]
      apply foldl_walk_files_mono
      exact walkStep_attaches ext ff tn acc p (by simpa using hm p (by simp)) hb
    | succ n =>
      rw [List.getElem?_cons_succ] at hi
      have hc := walkStep_counter ext ff tn acc p (by simpa using hm p (by simp))
      have harith : acc.counter + (n + 1) = (walkStep ext ff tn acc p).counter + n := by
        rw [hc]
        omega
      rw [harith]
      exact ih _ n part hi (fun q hq => hm q (by simp [hq])) hb

/-- Once a tracking-tag has matched, later queues cannot overwrite it. -/
theorem tagScanStep_locked (subject : String) (q : Queue) (a : Option Queue) (x : Nat) :
    tagScanStep subject (a, some x) q = (a, some x) := by
  unfold tagScanStep
  cases h : trackingMatch q.slug subject <;> rfl

/-- Folding the tag scan over any queues keeps a locked accumulator. -/
theorem foldl_tagScan_locked (subject : String) (l : List Queue) (a : Option Queue) (x : Nat) :
    l.foldl (tagScanStep subject) (a, some x) = (a, some x) := by
  induction l with
  | nil => rfl
  | cons q rest ih =>
    simp only [List.foldl_cons, tagScanStep_locked]
    exact ih

/-- Queues without a tag match leave the accumulator empty. -/
theorem foldl_tagScan_none (subject : String) (l : List Queue)
    (h : ∀ p ∈ l, trackingMatch p.slug subject = none) :
    l.foldl (tagScanStep subject) (none, none) = (none, none) := by
  induction l with
  | nil => rfl
  | cons q rest ih =>
    simp only [List.foldl_cons]
    have hq : trackingMatch q.slug subject = none := h q (by simp)
    have hstep : tagScanStep subject (none, none) q = (none, none) := by
      unfold tagScanStep
      rw [hq]
    rw [hstep]
    exact ih (fun p hp => h p (by simp [hp]))

/-- The loop-guard CC healing touches neither tickets nor follow-ups. -/
theorem loopGuardHeal_pres (db : DB) (tg : Option Nat) (sa : String) (q : Queue)
    (af : Option String) (tl : List (String × String)) :
    (loopGuardHeal db tg sa q af tl).tickets = db.tickets ∧
    (loopGuardHeal db tg sa q af tl).followups = db.followups := by
  cases tg with
  | none => exact ⟨rfl, rfl⟩
  | some tid =>
    simp only [loopGuardHeal]
    split
    · exact ⟨rfl, rfl⟩
    · exact ⟨rfl, rfl⟩

/-- Saving a row keyed by an id other than the looked-up one does not change
the lookup result. -/
theorem find?_save_other (l : List TicketT) (m tid : Nat) (t' : TicketT)
    (hne : tid ≠ m) (hid : t'.id = m) :
    (l.map (fun x => if x.id == m then t' else x)).find? (fun x => x.id == tid) =
      l.find? (fun x => x.id == tid) := by
  induction l with
  | nil => rfl
  | cons a rest ih =>
    simp only [List.map_cons]
    by_cases ha : a.id = m
    · have hb : (a.id == m) = true := by simpa using ha
      rw [if_pos hb]
      have h1 : (t'.id == tid) = false := by
        simp [hid]
        exact fun hx => hne hx.symm
      have h2 : (a.id == tid) = false := by
        simp [ha]
        exact fun hx => hne hx.symm
      simp only [List.find?_cons, h1, h2]
      exact ih
    · have hb : ¬((a.id == m) = true) := by simpa using ha
      rw [if_neg hb]
      by_cases hat : a.id = tid
      · have h1 : (a.id == tid) = true := by simpa using hat
        simp only [List.find?_cons, h1]
      · have h1 : (a.id == tid) = false := by simpa using hat
        simp only [List.find?_cons, h1]
        exact ih

/-- Saving a row keyed by the looked-up id makes the lookup return the saved
row. -/
theorem find?_save_hit (l : List TicketT) (m : Nat) (t' tm : TicketT)
    (hfind : l.find? (fun x => x.id == m) = some tm) (hid : t'.id = m) :
    (l.map (fun x => if x.id == m then t' else x)).find? (fun x => x.id == m) = some t' := by
  induction l with
  | nil => simp at hfind
  | cons a rest ih =>
    simp only [List.map_cons]
    by_cases ha : a.id = m
    · have hb : (a.id == m) = true := by simpa using ha
      rw [if_pos hb]
      have h1 : (t'.id == m) = true := by simpa using hid
      simp only [List.find?_cons, h1]
    · have hb : ¬((a.id == m) = true) := by simpa using ha
      have hb2 : (a.id == m) = false := by simpa using ha
      rw [if_neg hb]
      simp only [List.find?_cons, hb2] at hfind ⊢
      exact ih hfind

/-- Saving a follow-up with a fresh id leaves existing rows unchanged. -/
theorem map_save_fresh (l : List FollowUpRec) (fid : Nat) (fu' : FollowUpRec)
    (h : ∀ g ∈ l, g.id ≠ fid) :
    l.map (fun g => if g.id == fid then fu' else g) = l := by
  induction l with
  | nil => rfl
  | cons a rest ih =>
    have ha : ¬((a.id == fid) = true) := by
      simp
      exact h a (by simp)
    simp only [List.map_cons, if_neg ha]
    rw [ih (fun g hg => h g (by simp [hg]))]

/-- CC subscription touches neither tickets nor follow-ups. -/
theorem subscribe_pres (ext : Externals) (db : DB) (tid : Nat) (e : String) :
    (subscribe_to_ticket_updates ext db tid e).tickets = db.tickets ∧
    (subscribe_to_ticket_updates ext db tid e).followups = db.followups := by
  unfold subscribe_to_ticket_updates
  split
  · exact ⟨rfl, rfl⟩
  · split
    · exact ⟨rfl, rfl⟩
    · exact ⟨rfl, rfl⟩

/-- Every CC record after a subscription is an old one or belongs to the
subscribed ticket. -/
theorem subscribe_ccs_mem (ext : Externals) (db : DB) (tid : Nat) (e : String)
    (cc : TicketCCRec) (h : cc ∈ (subscribe_to_ticket_updates ext db tid e).ticketccs) :
    cc ∈ db.ticketccs ∨ cc.ticket_id = tid := by
  unfold subscribe_to_ticket_updates at h
  split at h
  · exact Or.inl h
  · split at h
    · exact Or.inl h
    · simp at h
      rcases h with h | h
      · exact Or.inl h
      · right
        rw [h]

/-- One CC-loop step touches neither tickets nor follow-ups. -/
theorem ccStep_pres (ext : Externals) (t : TicketT) (d : DB) (p : String × String) :
    (ccStep ext t d p).tickets = d.tickets ∧ (ccStep ext t d p).followups = d.followups := by
  simp only [ccStep]
  split
  · exact ⟨rfl, rfl⟩
  · exact subscribe_pres ext d t.id (pyStrip p.2)

/-- Every CC record after one CC-loop step is old or belongs to the ticket. -/
theorem ccStep_ccs_mem (ext : Externals) (t : TicketT) (d : DB) (p : String × String)
    (cc : TicketCCRec) (h : cc ∈ (ccStep ext t d p).ticketccs) :
    cc ∈ d.ticketccs ∨ cc.ticket_id = t.id := by
  simp only [ccStep] at h
  split at h
  · exact Or.inl h
  · exact subscribe_ccs_mem ext d t.id (pyStrip p.2) cc h

/-- The CC loop fold touches neither tickets nor follow-ups. -/
theorem ccFold_pres (ext : Externals) (t : TicketT) (l : List (String × String)) :
    ∀ d : DB, ((l.foldl (ccStep ext t) d).tickets = d.tickets ∧
      (l.foldl (ccStep ext t) d).followups = d.followups) := by
  induction l with
  | nil => intro d; exact ⟨rfl, rfl⟩
  | cons p rest ih =>
    intro d
    simp only [List.foldl_cons]
    have h1 := ih (ccStep ext t d p)
    have h2 := ccStep_pres ext t d p
    exact ⟨h1.1.trans h2.1, h1.2.trans h2.2⟩

/-- Every CC record after the CC loop fold is old or belongs to the ticket. -/
theorem ccFold_ccs_mem (ext : Externals) (t : TicketT) (l : List (String × String)) :
    ∀ (d : DB) (cc : TicketCCRec), cc ∈ (l.foldl (ccStep ext t) d).ticketccs →
      cc ∈ d.ticketccs ∨ cc.ticket_id = t.id := by
  induction l with
  | nil => intro d cc h; exact Or.inl h
  | cons p rest ih =>
    intro d cc h
    simp only [List.foldl_cons] at h
    rcases ih (ccStep ext t d p) cc h with h2 | h2
    · exact ccStep_ccs_mem ext t d p cc h2
    · exact Or.inr h2

/-- `create_ticket_cc` touches neither tickets nor follow-ups. -/
theorem create_ticket_cc_pres (ext : Externals) (db : DB) (t : TicketT)
    (l : List (String × String)) :
    (create_ticket_cc ext db t l).tickets = db.tickets ∧
    (create_ticket_cc ext db t l).followups = db.followups := by
  unfold create_ticket_cc
  split
  · exact ⟨rfl, rfl⟩
  · exact ccFold_pres ext t l db

/-- Every CC record after `create_ticket_cc` is old or belongs to the ticket. -/
theorem create_ticket_cc_ccs_mem (ext : Externals) (db : DB) (t : TicketT)
    (l : List (String × String)) (cc : TicketCCRec)
    (h : cc ∈ (create_ticket_cc ext db t l).ticketccs) :
    cc ∈ db.ticketccs ∨ cc.ticket_id = t.id := by
  unfold create_ticket_cc at h
  split at h
  · exact Or.inl h
  · exact ccFold_ccs_mem ext t l db cc h

/-- With no `In-Reply-To` follow-up match, resolution goes through the
tracking-tag id and applies the merge redirect. -/
theorem resolveTicket_tag (db : DB) (inReplyTo : String) (tid : Nat) (t : TicketT)
    (hprev : latestFollowUp db.followups inReplyTo = none)
    (ht : findTicket db tid = some t) :
    resolveTicket db inReplyTo (some tid) = some (redirectMerged db t) := by
  unfold resolveTicket
  by_cases h : (inReplyTo == "") = true
  · rw [if_pos h]
    simp [ht]
  · rw [if_neg h, hprev]
    simp [ht]

/-- Python `s or ""` is the identity on strings. -/
theorem pyOrStr_some_orEmpty (s : String) : pyOrStr (some s) "" = s := by
  show (if s == "" then "" else s) = s
  by_cases h : (s == "") = true
  · rw [if_pos h]
    have : s = "" := by simpa using h
    rw [this]
  · rw [if_neg h]

/-- Every follow-up present after ingestion is an old one, or was created by
this ingestion: public, carrying the message id, with comment equal to the
payload's full body. -/
theorem create_object_followups_mem (ext : Externals) (cfg : Config) (db : DB)
    (messageId inReplyTo : String) (ticketId : Option Nat) (payload : Payload)
    (files : List FileRec) (fu : FollowUpRec)
    (h : fu ∈ (create_object_from_email_message ext cfg db messageId inReplyTo ticketId
        payload files).db.followups) :
    fu ∈ db.followups ∨
      (fu.public = true ∧ fu.message_id = messageId ∧ fu.comment = payload.full_body) := by
  have hprops : ∀ (d : DB) (tk : Option Nat),
      (mkFollowUp d tk payload.senderEmail payload.full_body messageId).public = true ∧
      (mkFollowUp d tk payload.senderEmail payload.full_body messageId).message_id = messageId ∧
      (mkFollowUp d tk payload.senderEmail payload.full_body messageId).comment =
        payload.full_body := by
    intro d tk
    refine ⟨rfl, rfl, ?_⟩
    show pyOrStr (some payload.full_body) "" = payload.full_body
    exact pyOrStr_some_orEmpty payload.full_body
  unfold create_object_from_email_message at h
  cases hres : resolveTicket db inReplyTo ticketId with
  | some t =>
    rw [hres] at h
    dsimp only [OMResult.db] at h
    rw [(create_ticket_cc_pres ext _ t (payload.toList ++ payload.ccList)).2] at h
    have h2 : fu ∈ (db.followups ++
        [mkFollowUp db (some t.id) payload.senderEmail payload.full_body messageId]).map
        (fun g => if g.id == (mkFollowUp db (some t.id) payload.senderEmail payload.full_body messageId).id
          then savedFollowup
            { db with
                followups := db.followups ++
                  [mkFollowUp db (some t.id) payload.senderEmail payload.full_body messageId],
                nextFuId := db.nextFuId + 1 }
            t (mkFollowUp db (some t.id) payload.senderEmail payload.full_body messageId)
            payload.senderEmail
          else g) := h
    rw [List.mem_map] at h2
    rcases h2 with ⟨g, hg, heq⟩
    by_cases hid : (g.id == (mkFollowUp db (some t.id) payload.senderEmail payload.full_body messageId).id) = true
    · rw [if_pos hid] at heq
      right
      rw [← heq]
      exact hprops db (some t.id)
    · rw [if_neg hid] at heq
      subst heq
      rw [List.mem_append] at hg
      rcases hg with hg | hg
      · exact Or.inl hg
      · right
        simp at hg
        rw [hg]
        exact hprops _ _
  | none =>
    rw [hres] at h
    dsimp only at h
    by_cases hup : cfg.updateOnly = true
    · rw [if_pos hup] at h
      dsimp only [OMResult.db] at h
      have h2 : fu ∈ db.followups ++
          [mkFollowUp db none payload.senderEmail payload.full_body messageId] := h
      rw [List.mem_append] at h2
      rcases h2 with hg | hg
      · exact Or.inl hg
      · right
        simp at hg
        rw [hg]
        exact hprops _ _
    · rw [if_neg hup] at h
      dsimp only [OMResult.db] at h
      rw [(create_ticket_cc_pres ext _ _ (payload.toList ++ payload.ccList)).2] at h
      have h2 : fu ∈ db.followups ++
          [mkFollowUp
            { db with
                tickets := db.tickets ++ [mkTicket db payload],
                nextTicketId := db.nextTicketId + 1 }
            (some (mkTicket db payload).id) payload.senderEmail payload.full_body messageId] := h
      rw [List.mem_append] at h2
      rcases h2 with hg | hg
      · exact Or.inl hg
      · right
        simp at hg
        rw [hg]
        exact hprops _ _

/-! Claim theorems. -/

/-- Claim C1 (code bug, evaluated at the failing input): with update-only mode
on and no ticket resolved (no In-Reply-To match, no tracking tag), the engine
creates no Ticket — but it does not treat the message as a no-op success:
email.py line 499 still creates a FollowUp with `ticket=None` and line 509 then
dereferences the `None` ticket (`ticket.submitter_email`), raising an uncaught
exception. -/
theorem C1_update_only_unmatched_errors :
    (object_from_message fxExt fxCfgUpdateOnly 1 fxQueues fxMsg fxDB0).isErrored = true ∧
    (object_from_message fxExt fxCfgUpdateOnly 1 fxQueues fxMsg fxDB0).db.tickets = [] ∧
    (object_from_message fxExt fxCfgUpdateOnly 1 fxQueues fxMsg fxDB0).db.followups.map
      (fun f => f.ticket) = [none] :=
  ⟨by decide, by decide, by decide⟩

/-- Claim C2 counterexample: a message resolved via the In-Reply-To follow-up
match (`fxFu1`, message id "m0") reaches ticket 1 whose `merged_to` is 2, yet
every operation lands on ticket 1 itself: its status moves CLOSED → REOPENED,
the new follow-up is attached to ticket 1, ingestion returns ticket 1, and the
merge target 2 is untouched — the code (email.py lines 450-459) applies the
merge redirect only on the tracking-tag path (lines 461-474). -/
theorem C2_inreplyto_merge_counterexample :
    fxTicket1.merged_to = some 2 ∧
    (object_from_message fxExt fxCfg 1 fxQueues fxReplyMsg fxMergedDB).ticketId? = some 1 ∧
    (findTicket (object_from_message fxExt fxCfg 1 fxQueues fxReplyMsg fxMergedDB).db 1).map
      (fun t => t.status) = some Status.REOPENED ∧
    findTicket (object_from_message fxExt fxCfg 1 fxQueues fxReplyMsg fxMergedDB).db 2 =
      some fxTicket2 ∧
    (object_from_message fxExt fxCfg 1 fxQueues fxReplyMsg fxMergedDB).db.followups.map
      (fun f => f.ticket) = [some 1, some 1] :=
  ⟨rfl, by decide, by decide, by decide, by decide⟩

/-- Claim C2 as amended: only on the tracking-tag path is a merged ticket
redirected; there, all subsequent operations do land on the merge target:
ingestion returns the target id, the merged ticket row is unchanged, the
target's status transition is applied, the created follow-up points at the
target, and every new CC record belongs to the target. -/
theorem C2_tag_path_merge_redirect (ext : Externals) (cfg : Config) (db : DB)
    (messageId inReplyTo : String) (payload : Payload) (files : List FileRec)
    (tid m : Nat) (t tm : TicketT)
    (hprev : latestFollowUp db.followups inReplyTo = none)
    (ht : findTicket db tid = some t)
    (hm : t.merged_to = some m)
    (htm : findTicket db m = some tm)
    (hne : tid ≠ m)
    (hfu : ∀ g ∈ db.followups, g.id ≠ db.nextFuId) :
    (create_object_from_email_message ext cfg db messageId inReplyTo (some tid) payload
        files).ticketId? = some m ∧
    findTicket (create_object_from_email_message ext cfg db messageId inReplyTo (some tid)
        payload files).db tid = some t ∧
    findTicket (create_object_from_email_message ext cfg db messageId inReplyTo (some tid)
        payload files).db m = some (savedTicket db tm payload.senderEmail) ∧
    (create_object_from_email_message ext cfg db messageId inReplyTo (some tid) payload
        files).db.followups.map (fun f => f.ticket) =
      db.followups.map (fun f => f.ticket) ++ [some m] ∧
    ((create_object_from_email_message ext cfg db messageId inReplyTo (some tid) payload
        files).db.ticketccs.all
      (fun cc => db.ticketccs.contains cc || cc.ticket_id == m)) = true := by
  have hred : redirectMerged db t = tm := by
    unfold redirectMerged
    rw [hm]
    simp [htm]
  have hres : resolveTicket db inReplyTo (some tid) = some tm := by
    rw [resolveTicket_tag db inReplyTo tid t hprev ht, hred]
  have htm2 : db.tickets.find? (fun x => x.id == m) = some tm := htm
  have hmid : tm.id = m := by simpa using List.find?_some htm2
  have hnetid : tid ≠ tm.id := by
    rw [hmid]
    exact hne
  have hrun : create_object_from_email_message ext cfg db messageId inReplyTo (some tid)
      payload files =
      OMResult.ingested
        (create_ticket_cc ext
          (processAttachments
            (updateTicketAndFollowup
              { db with
                  followups := db.followups ++
                    [mkFollowUp db (some tm.id) payload.senderEmail payload.full_body messageId],
                  nextFuId := db.nextFuId + 1 }
              tm (mkFollowUp db (some tm.id) payload.senderEmail payload.full_body messageId)
              payload.senderEmail)
            (mkFollowUp db (some tm.id) payload.senderEmail payload.full_body messageId).id files)
          tm (payload.toList ++ payload.ccList))
        tm.id := by
    unfold create_object_from_email_message
    rw [hres]
  rw [hrun]
  set fu := mkFollowUp db (some tm.id) payload.senderEmail payload.full_body messageId with hfudef
  set db2 : DB :=
    { db with followups := db.followups ++ [fu], nextFuId := db.nextFuId + 1 } with hdb2
  set D := create_ticket_cc ext
      (processAttachments (updateTicketAndFollowup db2 tm fu payload.senderEmail) fu.id files)
      tm (payload.toList ++ payload.ccList) with hD
  have htk : D.tickets =
      db.tickets.map (fun x => if x.id == tm.id then savedTicket db2 tm payload.senderEmail else x) := by
    rw [hD]
    rw [(create_ticket_cc_pres ext _ tm (payload.toList ++ payload.ccList)).1]
    rfl
  have hfl : D.followups =
      (db.followups ++ [fu]).map
        (fun g => if g.id == fu.id then savedFollowup db2 tm fu payload.senderEmail else g) := by
    rw [hD]
    rw [(create_ticket_cc_pres ext _ tm (payload.toList ++ payload.ccList)).2]
    rfl
  refine ⟨?_, ?_, ?_, ?_, ?_⟩
  · simp only [OMResult.ticketId?, hmid]
  · show findTicket D tid = some t
    unfold findTicket
    rw [htk]
    rw [find?_save_other db.tickets tm.id tid (savedTicket db2 tm payload.senderEmail) hnetid rfl]
    exact ht
  · show findTicket D m = some (savedTicket db tm payload.senderEmail)
    unfold findTicket
    rw [htk, hmid]
    have := find?_save_hit db.tickets m (savedTicket db2 tm payload.senderEmail) tm
      htm2 (by rw [← hmid]; rfl)
    rw [this]
    rfl
  · show D.followups.map (fun f => f.ticket) = db.followups.map (fun f => f.ticket) ++ [some m]
    rw [hfl, List.map_append]
    have h4b : db.followups.map
        (fun g => if g.id == fu.id then savedFollowup db2 tm fu payload.senderEmail else g) =
        db.followups := map_save_fresh db.followups fu.id _ hfu
    rw [h4b]
    have h4c : ([fu].map
        (fun g => if g.id == fu.id then savedFollowup db2 tm fu payload.senderEmail else g)) =
        [savedFollowup db2 tm fu payload.senderEmail] := by simp
    rw [h4c, List.map_append]
    have h4d : (savedFollowup db2 tm fu payload.senderEmail).ticket = some tm.id := rfl
    simp [h4d, hmid]
  · rw [List.all_eq_true]
    intro cc hcc
    have hmem : cc ∈ D.ticketccs := hcc
    rw [hD] at hmem
    rcases create_ticket_cc_ccs_mem ext _ tm (payload.toList ++ payload.ccList) cc hmem with h | h
    · have hmem2 : cc ∈ db.ticketccs := h
      simp [hmem2]
    · rw [hmid] at h
      simp [h]

/-- Claim C2 amended, witness: with `fxMergedDB` (ticket 1 merged into 2) and a
tracking-tag resolution of ticket 1, all operations land on ticket 2. -/
theorem C2_tag_path_merge_redirect_witness :
    (create_object_from_email_message fxExt fxCfg fxMergedDB "mid-1" "" (some 1) fxPayload
        []).ticketId? = some 2 ∧
    findTicket (create_object_from_email_message fxExt fxCfg fxMergedDB "mid-1" "" (some 1)
        fxPayload []).db 1 = some fxTicket1 ∧
    findTicket (create_object_from_email_message fxExt fxCfg fxMergedDB "mid-1" "" (some 1)
        fxPayload []).db 2 = some (savedTicket fxMergedDB fxTicket2 fxPayload.senderEmail) ∧
    (create_object_from_email_message fxExt fxCfg fxMergedDB "mid-1" "" (some 1) fxPayload
        []).db.followups.map (fun f => f.ticket) =
      fxMergedDB.followups.map (fun f => f.ticket) ++ [some 2] ∧
    ((create_object_from_email_message fxExt fxCfg fxMergedDB "mid-1" "" (some 1) fxPayload
        []).db.ticketccs.all
      (fun cc => fxMergedDB.ticketccs.contains cc || cc.ticket_id == 2)) = true :=
  C2_tag_path_merge_redirect fxExt fxCfg fxMergedDB "mid-1" "" fxPayload [] 1 2
    fxTicket1 fxTicket2 (by decide) (by decide) (by decide) (by decide) (by decide) (by decide)

/-- Claim C3 counterexample: the named MIME part "invoice.pdf" does not
produce an attachment named "invoice.pdf": the code (email.py line 751)
prefixes the declared name with `part-<counter>_`, and the stored content type
is guessed from that synthesized filename (line 769), not taken from the
part's declared content type. -/
theorem C3_declared_filename_counterexample :
    fxPdfPart.name = some "invoice.pdf" ∧
    (object_from_message fxExt fxCfg 1 fxQueues fxMsgPdf fxDB0).db.attachments.map
      (fun a => a.filename) = ["part-0_invoice.pdf"] ∧
    ((object_from_message fxExt fxCfg 1 fxQueues fxMsgPdf fxDB0).db.attachments.map
      (fun a => a.filename)).contains "invoice.pdf" = false :=
  ⟨rfl, by decide, by decide⟩

/-- Claim C3 as amended: a MIME part at walk index i carrying the declared
filename fn is staged (and later linked to the follow-up through the
attachment-processing collaborator) as `part-<i>_<fn>`, with content type
guessed from that synthesized filename; unnamed non-text parts get
`part-<i><ext>` (see `attachmentName`). -/
theorem C3_named_part_attachment_naming (ext : Externals) (ff tn : Bool)
    (parts : List MimePart) (i : Nat) (part : MimePart) (fn : String)
    (hi : parts[i]? = some part)
    (hmult : ∀ p ∈ parts, p.maintype ≠ "multipart")
    (hname : part.name = some fn) :
    (⟨"part-" ++ toString i ++ "_" ++ fn, part.payload,
      guessType ("part-" ++ toString i ++ "_" ++ fn)⟩ : FileRec) ∈
        (walkParts ext ff tn parts).files := by
  have hb : part.name ≠ none ∨ part.maintype ≠ "text" := by
    left
    rw [hname]
    simp
  have h := foldl_walk_attaches ext ff tn parts ⟨none, none, [], 0⟩ i part hi hmult hb
  rw [Nat.zero_add] at h
  have hA : attachmentFile i part =
      ⟨"part-" ++ toString i ++ "_" ++ fn, part.payload,
        guessType ("part-" ++ toString i ++ "_" ++ fn)⟩ := by
    unfold attachmentFile attachmentName
    rw [hname]
  rw [hA] at h
  exact h

/-- Claim C3 amended, witness: the part "invoice.pdf" at index 0 is staged as
"part-0_invoice.pdf" with the guessed type application/pdf. -/
theorem C3_named_part_attachment_naming_witness :
    (⟨"part-0_invoice.pdf", "PDF", some "application/pdf"⟩ : FileRec) ∈
      (walkParts fxExt false false [fxPdfPart]).files := by
  have h := C3_named_part_attachment_naming fxExt false false [fxPdfPart] 0 fxPdfPart
    "invoice.pdf" (by decide) (by decide) rfl
  simpa using h

/-- Claim C4 counterexample: staff user 7 — the current assignee of ticket 3 —
replies to the staff-submitted ticket 3 in status REPLIED. The claim's
condition ("updater differs from the current assignee") is false here, so the
claim predicts the staff branch and a final status of REPLIED
(`claimC4Transition true true true REPLIED = REPLIED`); but the code's
`updater is not ticket.assigned_to` (email.py line 512) compares Python object
identity between two freshly loaded ORM instances — true whenever either side
exists — so the code takes the external branch and moves REPLIED → OPEN. -/
theorem C4_assignee_identity_counterexample :
    fxTicket3.assigned_to = some fxU7.id ∧
    fxU7.email = fxStaffMsg.fromAddr ∧
    fxU7.is_staff = true ∧
    fxU5.is_staff = true ∧
    fxTicket3.submitter_email = fxU5.email ∧
    fxTicket3.status = Status.REPLIED ∧
    claimC4Transition true true true Status.REPLIED = Status.REPLIED ∧
    (findTicket (object_from_message fxExt fxCfg 1 fxQueues fxStaffMsg fxStaffDB).db 3).map
      (fun t => t.status) = some Status.OPEN :=
  ⟨rfl, rfl, rfl, rfl, rfl, rfl, by decide, by decide⟩

/-- Claim C4 as amended: when a message updates an existing ticket, the saved
status is `statusTransition` of the line-512 condition, and that condition's
"updater differs from the assignee" clause is Python object identity over
freshly loaded instances: it holds unless both the updater account and the
assignee are absent — so effectively the external/public branch is taken iff
the submitter is staff or the updater is not staff. -/
theorem C4_update_status_transition (ext : Externals) (cfg : Config) (db : DB)
    (messageId inReplyTo : String) (payload : Payload) (files : List FileRec)
    (tid : Nat) (t : TicketT)
    (hprev : latestFollowUp db.followups inReplyTo = none)
    (ht : findTicket db tid = some t)
    (hmg : t.merged_to = none) :
    findTicket (create_object_from_email_message ext cfg db messageId inReplyTo (some tid)
        payload files).db tid =
      some { t with
        status := statusTransition (externalUpdateCond db t payload.senderEmail) t.status } ∧
    externalUpdateCond db t payload.senderEmail =
      ((isHelpdeskStaff (db.users.find? (fun u => u.email == t.submitter_email)) &&
        !((db.users.find? (fun u => u.email == payload.senderEmail)).isNone &&
          t.assigned_to.isNone)) ||
       !isHelpdeskStaff (db.users.find? (fun u => u.email == payload.senderEmail))) := by
  have hred : redirectMerged db t = t := by
    unfold redirectMerged
    rw [hmg]
  have hres : resolveTicket db inReplyTo (some tid) = some t := by
    rw [resolveTicket_tag db inReplyTo tid t hprev ht, hred]
  have ht2 : db.tickets.find? (fun x => x.id == tid) = some t := ht
  have htid : t.id = tid := by simpa using List.find?_some ht2
  subst htid
  have hrun : create_object_from_email_message ext cfg db messageId inReplyTo (some t.id)
      payload files =
      OMResult.ingested
        (create_ticket_cc ext
          (processAttachments
            (updateTicketAndFollowup
              { db with
                  followups := db.followups ++
                    [mkFollowUp db (some t.id) payload.senderEmail payload.full_body messageId],
                  nextFuId := db.nextFuId + 1 }
              t (mkFollowUp db (some t.id) payload.senderEmail payload.full_body messageId)
              payload.senderEmail)
            (mkFollowUp db (some t.id) payload.senderEmail payload.full_body messageId).id files)
          t (payload.toList ++ payload.ccList))
        t.id := by
    unfold create_object_from_email_message
    rw [hres]
  constructor
  · rw [hrun]
    set fu := mkFollowUp db (some t.id) payload.senderEmail payload.full_body messageId with hfudef
    set db2 : DB :=
      { db with followups := db.followups ++ [fu], nextFuId := db.nextFuId + 1 } with hdb2
    set D := create_ticket_cc ext
        (processAttachments (updateTicketAndFollowup db2 t fu payload.senderEmail) fu.id files)
        t (payload.toList ++ payload.ccList) with hD
    have htk : D.tickets =
        db.tickets.map (fun x => if x.id == t.id then savedTicket db2 t payload.senderEmail else x) := by
      rw [hD]
      rw [(create_ticket_cc_pres ext _ t (payload.toList ++ payload.ccList)).1]
      rfl
    show findTicket D t.id = _
    unfold findTicket
    rw [htk]
    have := find?_save_hit db.tickets t.id (savedTicket db2 t payload.senderEmail) t ht2 rfl
    rw [this]
    rfl
  · simp only [externalUpdateCond, pyIsNotUser]
    cases hu : db.users.find? (fun u => u.email == payload.senderEmail) <;> rfl

/-- Claim C4 amended, witness: staff user 7 (the assignee) updates ticket 3 in
REPLIED via a tracking tag; the saved status is the code's transition of the
line-512 condition, and that condition unfolds as characterized. -/
theorem C4_update_status_transition_witness :
    findTicket (create_object_from_email_message fxExt fxCfg fxStaffDB "mid-1" "" (some 3)
        { fxPayload with senderEmail := "u7@x.com" } []).db 3 =
      some { fxTicket3 with
        status := statusTransition
          (externalUpdateCond fxStaffDB fxTicket3
            ({ fxPayload with senderEmail := "u7@x.com" } : Payload).senderEmail)
          fxTicket3.status } ∧
    externalUpdateCond fxStaffDB fxTicket3
        ({ fxPayload with senderEmail := "u7@x.com" } : Payload).senderEmail =
      ((isHelpdeskStaff (fxStaffDB.users.find? (fun u => u.email == fxTicket3.submitter_email)) &&
        !((fxStaffDB.users.find? (fun u =>
            u.email == ({ fxPayload with senderEmail := "u7@x.com" } : Payload).senderEmail)).isNone &&
          fxTicket3.assigned_to.isNone)) ||
       !isHelpdeskStaff (fxStaffDB.users.find? (fun u =>
          u.email == ({ fxPayload with senderEmail := "u7@x.com" } : Payload).senderEmail))) :=
  C4_update_status_transition fxExt fxCfg fxStaffDB "mid-1" ""
    { fxPayload with senderEmail := "u7@x.com" } [] 3 fxTicket3
    (by decide) (by decide) (by decide)

/-- Claim C5 (confirmed): the per-update status transition is idempotent —
applying the same update's transition twice equals applying it once — and in
particular an external/public replay moves CLOSED to REOPENED and then leaves
REOPENED fixed, so the reopening happens exactly once, not cumulatively. -/
theorem C5_status_transition_idempotent (externalUpdate : Bool) (s : Status) :
    statusTransition externalUpdate (statusTransition externalUpdate s) =
      statusTransition externalUpdate s ∧
    statusTransition true Status.CLOSED = Status.REOPENED ∧
    statusTransition true Status.REOPENED = Status.REOPENED := by
  refine ⟨?_, rfl, rfl⟩
  cases externalUpdate <;> cases s <;> rfl

/-- Claim C6 counterexample: a message whose sender address equals the
resolved queue's own address is nonetheless Retained, not Consumed, when a
keep-in-mailbox ignore rule matches the sender — the ignore list (email.py
lines 624-631) runs before the forwarding-loop guard (lines 660-676). -/
theorem C6_loop_ignore_keep_counterexample :
    pyLower fxLoopMsg.fromAddr =
      pyLower (classifyQueue fxQueues
        (stripSubject (fxLoopMsg.subject.getD "Comment from e-mail"))
        fxLoopMsg.fromAddr).1.email_address ∧
    object_from_message fxExt fxCfg 1 fxQueues fxLoopMsg fxLoopDB =
      OMResult.retained fxLoopDB ∧
    (object_from_message fxExt fxCfg 1 fxQueues fxLoopMsg fxLoopDB).isConsumed = false :=
  ⟨by decide, rfl, by decide⟩

/-- Claim C6 as amended: provided the sender address parses and no ignore rule
matches, a message carrying the loop-marker header or sent from the resolved
queue's own address is always Consumed, no Ticket or FollowUp is created, and
the store is only changed by the CC healing of `loopGuardHeal` (which, when
the tracking tag named an existing ticket, deletes that ticket's CC records
matching the forwarded address set). -/
theorem C6_loop_guard_consumes (ext : Externals) (cfg : Config) (importerId : Nat)
    (qs : Queues) (msg : EmailMsg) (db : DB)
    (hs : msg.fromAddr ≠ "")
    (hig : findIgnoreMatch importerId db.ignores
      ((msg.fromName, msg.fromAddr) :: (msg.toList ++ msg.ccList)) = none)
    (hloop : msg.xBeamDelivered.isSome = true ∨
      pyLower msg.fromAddr =
        pyLower (classifyQueue qs (stripSubject (msg.subject.getD "Comment from e-mail"))
          msg.fromAddr).1.email_address) :
    object_from_message ext cfg importerId qs msg db =
      OMResult.consumed
        (loopGuardHeal db
          (classifyQueue qs (stripSubject (msg.subject.getD "Comment from e-mail")) msg.fromAddr).2
          msg.fromAddr
          (classifyQueue qs (stripSubject (msg.subject.getD "Comment from e-mail")) msg.fromAddr).1
          msg.xBeamDelivered msg.toList) ∧
    (object_from_message ext cfg importerId qs msg db).db.tickets = db.tickets ∧
    (object_from_message ext cfg importerId qs msg db).db.followups = db.followups := by
  have hs2 : (msg.fromAddr == "") = false := by simpa using hs
  have hcond : (msg.xBeamDelivered.isSome ||
      pyLower msg.fromAddr ==
        pyLower (classifyQueue qs (stripSubject (msg.subject.getD "Comment from e-mail"))
          msg.fromAddr).1.email_address) = true := by
    rcases hloop with h | h
    · simp [h]
    · simp [h]
  have h1 : object_from_message ext cfg importerId qs msg db =
      OMResult.consumed
        (loopGuardHeal db
          (classifyQueue qs (stripSubject (msg.subject.getD "Comment from e-mail")) msg.fromAddr).2
          msg.fromAddr
          (classifyQueue qs (stripSubject (msg.subject.getD "Comment from e-mail")) msg.fromAddr).1
          msg.xBeamDelivered msg.toList) := by
    unfold object_from_message
    rw [hs2]
    simp only [Bool.false_eq_true, if_false]
    rw [hig]
    rw [hcond]
    simp only [if_true]
  refine ⟨h1, ?_, ?_⟩ <;> rw [h1]
  · exact (loopGuardHeal_pres db _ msg.fromAddr _ msg.xBeamDelivered msg.toList).1
  · exact (loopGuardHeal_pres db _ msg.fromAddr _ msg.xBeamDelivered msg.toList).2

/-- Claim C6 amended, witness: a message carrying the loop-marker header over
the empty store is consumed without creating anything. -/
theorem C6_loop_guard_consumes_witness :
    object_from_message fxExt fxCfg 1 fxQueues fxBeamMsg fxDB0 =
      OMResult.consumed
        (loopGuardHeal fxDB0
          (classifyQueue fxQueues
            (stripSubject (fxBeamMsg.subject.getD "Comment from e-mail")) fxBeamMsg.fromAddr).2
          fxBeamMsg.fromAddr
          (classifyQueue fxQueues
            (stripSubject (fxBeamMsg.subject.getD "Comment from e-mail")) fxBeamMsg.fromAddr).1
          fxBeamMsg.xBeamDelivered fxBeamMsg.toList) ∧
    (object_from_message fxExt fxCfg 1 fxQueues fxBeamMsg fxDB0).db.tickets = fxDB0.tickets ∧
    (object_from_message fxExt fxCfg 1 fxQueues fxBeamMsg fxDB0).db.followups = fxDB0.followups :=
  C6_loop_guard_consumes fxExt fxCfg 1 fxQueues fxBeamMsg fxDB0 (by decide) rfl (Or.inl rfl)

/-- Claim C7 counterexample: the priority header value "highest" contains the
urgent keyword "high" as a substring, yet the produced payload's priority is
normal (3), not high (2): the code (email.py line 802) tests set membership of
the whole header value, not containment. -/
theorem C7_priority_containment_counterexample :
    strContains "highest" "high" = true ∧
    "high" ∈ highPriorityTypes ∧
    (messagePayload fxExt fxCfg fxMsgHighest "Hello there" fxQueue none).1.priority = 3 ∧
    (messagePayload fxExt fxCfg fxMsgHighest "Hello there" fxQueue none).1.priority ≠ 2 :=
  ⟨by decide, by decide, by decide, by decide⟩

/-- Claim C7 as amended: the produced payload's priority is high (2) iff the
raw priority or importance header value is exactly equal (case-sensitively) to
one of the urgent keywords, and otherwise it is normal (3). -/
theorem C7_priority_exact_match (ext : Externals) (cfg : Config) (msg : EmailMsg)
    (subject : String) (queue : Queue) (tagTicket : Option Nat) :
    ((messagePayload ext cfg msg subject queue tagTicket).1.priority = 2 ↔
      msg.priorityHdr ∈ highPriorityTypes ∨ msg.importanceHdr ∈ highPriorityTypes) ∧
    ((messagePayload ext cfg msg subject queue tagTicket).1.priority = 2 ∨
      (messagePayload ext cfg msg subject queue tagTicket).1.priority = 3) := by
  have hpr : (messagePayload ext cfg msg subject queue tagTicket).1.priority =
      computePriority msg.priorityHdr msg.importanceHdr := rfl
  constructor
  · rw [hpr]
    exact computePriority_high_iff _ _
  · rw [hpr]
    unfold computePriority
    split
    · exact Or.inr rfl
    · exact Or.inl rfl

/-- Claim C8 counterexample: a keep-in-mailbox ignore rule matches the To
address "u@x.com", yet the message is Consumed, not Retained, because its
sender address could not be parsed and email.py lines 615-619 consume such
messages before the ignore list is ever consulted. -/
theorem C8_unparsable_sender_counterexample :
    fxKeepRule.keep_in_mailbox = true ∧
    fxKeepRule.test "u@x.com" = true ∧
    fxNoSenderMsg.toList.map (fun p => p.2) = ["u@x.com"] ∧
    object_from_message fxExt fxCfg 1 fxQueues fxNoSenderMsg fxIgnoreKeepDB =
      OMResult.consumed fxIgnoreKeepDB ∧
    (object_from_message fxExt fxCfg 1 fxQueues fxNoSenderMsg fxIgnoreKeepDB).isRetained =
      false :=
  ⟨rfl, by decide, by decide, rfl, by decide⟩

/-- Claim C8 as amended: provided the sender address parses, when an
importer-scoped or globally scoped ignore rule matches the sender or a To/Cc
address (the first such rule in scan order deciding), the outcome is Retained
if that rule's keep-in-mailbox flag is set and Consumed otherwise, and the
store — in particular tickets and follow-ups — is unchanged. -/
theorem C8_ignore_rule_outcome (ext : Externals) (cfg : Config) (importerId : Nat)
    (qs : Queues) (msg : EmailMsg) (db : DB) (r : IgnoreRule)
    (hs : msg.fromAddr ≠ "")
    (hig : findIgnoreMatch importerId db.ignores
      ((msg.fromName, msg.fromAddr) :: (msg.toList ++ msg.ccList)) = some r) :
    object_from_message ext cfg importerId qs msg db =
      (if r.keep_in_mailbox then OMResult.retained db else OMResult.consumed db) ∧
    (object_from_message ext cfg importerId qs msg db).db.tickets = db.tickets ∧
    (object_from_message ext cfg importerId qs msg db).db.followups = db.followups := by
  have hs2 : (msg.fromAddr == "") = false := by simpa using hs
  have h1 : object_from_message ext cfg importerId qs msg db =
      (if r.keep_in_mailbox then OMResult.retained db else OMResult.consumed db) := by
    unfold object_from_message
    rw [hs2]
    simp only [Bool.false_eq_true, if_false]
    rw [hig]
  refine ⟨h1, ?_, ?_⟩ <;> rw [h1] <;> cases r.keep_in_mailbox <;> rfl

/-- Claim C8 amended, witness: the delete-on-match rule for "spam@evil.com"
consumes a message from that address without touching the store. -/
theorem C8_ignore_rule_outcome_witness :
    object_from_message fxExt fxCfg 1 fxQueues fxSpamMsg fxSpamDB =
      (if fxSpamRule.keep_in_mailbox then OMResult.retained fxSpamDB
       else OMResult.consumed fxSpamDB) ∧
    (object_from_message fxExt fxCfg 1 fxQueues fxSpamMsg fxSpamDB).db.tickets =
      fxSpamDB.tickets ∧
    (object_from_message fxExt fxCfg 1 fxQueues fxSpamMsg fxSpamDB).db.followups =
      fxSpamDB.followups :=
  C8_ignore_rule_outcome fxExt fxCfg 1 fxQueues fxSpamMsg fxSpamDB fxSpamRule (by decide) rfl

/-- Claim C9 (confirmed): when q is the first importer queue whose slug
tracking tag `[<slug>-<digits>]` matches the subject, classification resolves
to q and to the captured ticket id — for every setting of the queues'
subject-keyword and sender-address match rules (which are quantified over
arbitrarily here), and without later tag matches overwriting the first. -/
theorem C9_tracking_tag_classification (qs : Queues) (subject sender : String)
    (q : Queue) (tid : Nat) (pre post : List Queue)
    (hsplit : qs.importer_queues = pre ++ q :: post)
    (hpre : ∀ p ∈ pre, trackingMatch p.slug subject = none)
    (hq : trackingMatch q.slug subject = some tid) :
    classifyQueue qs subject sender = (q, some tid) := by
  unfold classifyQueue
  rw [hsplit, List.foldl_append, foldl_tagScan_none subject pre hpre]
  simp only [List.foldl_cons]
  have hstep : tagScanStep subject (none, none) q = (some q, some tid) := by
    unfold tagScanStep
    rw [hq]
  rw [hstep, foldl_tagScan_locked]
  rfl

/-- Claim C9, witness: the subject "[support-42] printer broken" resolves to
the support queue and ticket id 42. -/
theorem C9_tracking_tag_classification_witness :
    classifyQueue fxQueues "[support-42] printer broken" "user@y.com" = (fxQueue, some 42) :=
  C9_tracking_tag_classification fxQueues "[support-42] printer broken" "user@y.com"
    fxQueue 42 [] [] rfl (by decide) (by decide)

/-- Claim C10 (confirmed): every follow-up present after processing a message
is an old one, or was created by this ingestion with public = true, the
message id recorded for threading, and a comment that is always a string —
the payload's full body, which `messagePayload` computes as the extracted full
body when truthy, else the extracted plain body, else the empty string. -/
theorem C10_followup_public_comment (ext : Externals) (cfg : Config) (importerId : Nat)
    (qs : Queues) (msg : EmailMsg) (db : DB) (fu : FollowUpRec)
    (hfu : fu ∈ (object_from_message ext cfg importerId qs msg db).db.followups) :
    fu ∈ db.followups ∨
      (fu.public = true ∧ fu.message_id = msg.messageId ∧
       fu.comment = (messagePayload ext cfg msg
          (stripSubject (msg.subject.getD "Comment from e-mail"))
          (classifyQueue qs (stripSubject (msg.subject.getD "Comment from e-mail")) msg.fromAddr).1
          (classifyQueue qs (stripSubject (msg.subject.getD "Comment from e-mail"))
            msg.fromAddr).2).1.full_body) := by
  unfold object_from_message at hfu
  dsimp only at hfu
  by_cases hs : (msg.fromAddr == "") = true
  · rw [if_pos hs] at hfu
    exact Or.inl hfu
  · rw [if_neg hs] at hfu
    cases hig : findIgnoreMatch importerId db.ignores
        ((msg.fromName, msg.fromAddr) :: (msg.toList ++ msg.ccList)) with
    | some r =>
      rw [hig] at hfu
      dsimp only at hfu
      by_cases hk : r.keep_in_mailbox = true
      · rw [if_pos hk] at hfu
        exact Or.inl hfu
      · rw [if_neg hk] at hfu
        exact Or.inl hfu
    | none =>
      rw [hig] at hfu
      dsimp only at hfu
      by_cases hl : (msg.xBeamDelivered.isSome ||
          pyLower msg.fromAddr == pyLower (classifyQueue qs
            (stripSubject (msg.subject.getD "Comment from e-mail"))
            msg.fromAddr).1.email_address) = true
      · rw [if_pos hl] at hfu
        dsimp only [OMResult.db] at hfu
        have hpres := loopGuardHeal_pres db
          (classifyQueue qs (stripSubject (msg.subject.getD "Comment from e-mail")) msg.fromAddr).2
          msg.fromAddr
          (classifyQueue qs (stripSubject (msg.subject.getD "Comment from e-mail")) msg.fromAddr).1
          msg.xBeamDelivered msg.toList
        rw [hpres.2] at hfu
        exact Or.inl hfu
      · rw [if_neg hl] at hfu
        exact create_object_followups_mem ext cfg db msg.messageId msg.inReplyTo _ _ _ fu hfu

/-- Claim C10, witness: ingesting `fxMsg` into the empty store creates exactly
the public follow-up `fxC10Fu` with the message id recorded and the computed
full body as comment. -/
theorem C10_followup_public_comment_witness :
    fxC10Fu ∈ fxDB0.followups ∨
      (fxC10Fu.public = true ∧ fxC10Fu.message_id = fxMsg.messageId ∧
       fxC10Fu.comment = (messagePayload fxExt fxCfg fxMsg
          (stripSubject (fxMsg.subject.getD "Comment from e-mail"))
          (classifyQueue fxQueues (stripSubject (fxMsg.subject.getD "Comment from e-mail"))
            fxMsg.fromAddr).1
          (classifyQueue fxQueues (stripSubject (fxMsg.subject.getD "Comment from e-mail"))
            fxMsg.fromAddr).2).1.full_body) :=
  C10_followup_public_comment fxExt fxCfg 1 fxQueues fxMsg fxDB0 fxC10Fu (by decide)

end Helpdesk
